import Mathlib

/-!
Host side of the OpenCL matrix multiplication (`matmul.c`)

Shallow embedding of `apply_zero_padding`, `remove_zero_padding`, `matmul`
and the allocation part of `matmul_initialize`.

Modelling choices.

* A C array is a `Buf`: a capacity (`size`, in elements) and its contents
  (`cell`).  Every access goes through `memcpy`, which checks both ranges
  against the capacities and yields `none` when one of them leaves its
  buffer (undefined behaviour in C, or an OpenCL error followed by `exit`).
* The element type is abstract; `calloc` needs a zero, the product needs a
  semiring.  Floating point rounding is not modelled.
* Dimensions are the non-negative values of C `int`, as `Nat`, with exact
  arithmetic.  The 32-bit computation of the padded dimension is modelled
  separately (`padded_int32`) and related to the exact one.
* The macro `GROUP_WIDTH` is a parameter `w` of the two padding functions;
  `matmul` and `matmul_initialize` pass the value 64 of the source.
* The device program `kernel.cl` is a parameter `kernel` of `matmul`.
-/

namespace Matmul

/-- Macro `GROUP_WIDTH` of matmul.c. -/
def GROUP_WIDTH : Nat := 64

/-- Macro `VECTOR_SIZE` of matmul.c. -/
def VECTOR_SIZE : Nat := 16

/-- Padded dimension `(d + GROUP_WIDTH - 1) / GROUP_WIDTH * GROUP_WIDTH` for tile width `w`. -/
def padded (w d : Nat) : Nat :=
  (d + w - 1) / w * w

/-- Array `global_work_size` of matmul. -/
def global_work_size (M_padded N_padded : Nat) : Nat × Nat :=
  (M_padded, N_padded / VECTOR_SIZE)

/-- Array `local_work_size` of matmul. -/
def local_work_size : Nat × Nat :=
  (GROUP_WIDTH, GROUP_WIDTH / VECTOR_SIZE)

/-- Wrap of an integer into the two's-complement range of a 32-bit `int`. -/
def wrap32 (x : Int) : Int :=
  (x + 2147483648) % 4294967296 - 2147483648

/-- Largest value of a 32-bit `int`. -/
def INT_MAX : Int := 2147483647

/-- Padded dimension as the 32-bit machine computes it:
`((d + 64) - 1) / 64 * 64` with every intermediate result wrapped,
and the truncating division of C. -/
def padded_int32 (d : Int) : Int :=
  wrap32 (Int.tdiv (wrap32 (wrap32 (d + GROUP_WIDTH) - 1)) GROUP_WIDTH * GROUP_WIDTH)

theorem padded_lt {w : Nat} (hw : 0 < w) (d : Nat) : padded w d < d + w := by
  unfold padded
  have h1 := Nat.div_add_mod (d + w - 1) w
  rw [Nat.mul_comm] at h1
  omega

theorem dvd_padded (w d : Nat) : w ∣ padded w d :=
  Dvd.intro_left _ rfl

theorem padded_int32_eq (d : Int) (h0 : 0 ≤ d) (h1 : d + 63 ≤ INT_MAX) :
    padded_int32 d = (d + 63) / 64 * 64 := by
  unfold padded_int32 wrap32 GROUP_WIDTH
  unfold INT_MAX at h1
  have e1 : ((((d + ((64 : Nat) : Int) + 2147483648) % 4294967296 - 2147483648 - 1
      + 2147483648) % 4294967296 - 2147483648 : Int)) = d + 63 := by
    omega
  rw [e1, Int.tdiv_eq_ediv (by omega) (by decide)]
  have e2 : (((64 : Nat) : Int)) = 64 := rfl
  rw [e2]
  omega

theorem padded_cast (d : Nat) : ((padded GROUP_WIDTH d : Nat) : Int) = ((d : Int) + 63) / 64 * 64 := by
  unfold padded GROUP_WIDTH
  omega

/-! ## Further facts about staging buffers -/

/-- C4: for every dimension `d >= 0` with `d + 63` representable as a 32-bit
int, the padded dimension the machine computes, `(d + 63) / 64 * 64`, is a
multiple of 64, is `>= d`, is `< d + 64`, is the smallest multiple of 64 that is
`>= d`, and is the value of the exact model; 65, 70 and 33 give 128, 128 and 64. -/
theorem padded_dimension_is_smallest_multiple (d : Int) (h0 : 0 ≤ d)
    (h1 : d + 63 ≤ INT_MAX) :
    (64 : Int) ∣ padded_int32 d ∧ d ≤ padded_int32 d ∧ padded_int32 d < d + 64 ∧
    (∀ m : Int, (64 : Int) ∣ m → d ≤ m → padded_int32 d ≤ m) ∧
    padded_int32 d = ((padded GROUP_WIDTH d.toNat : Nat) : Int) ∧
    (padded_int32 65 = 128 ∧ padded_int32 70 = 128 ∧ padded_int32 33 = 64) ∧
    (padded GROUP_WIDTH 65 = 128 ∧ padded GROUP_WIDTH 70 = 128 ∧
      padded GROUP_WIDTH 33 = 64) := by
  rw [padded_int32_eq d h0 h1, padded_cast]
  refine ⟨by omega, by omega, by omega, ?_, by omega, ⟨by decide, by decide, by decide⟩,
    ⟨by decide, by decide, by decide⟩⟩
  rintro m ⟨q, rfl⟩ hm
  omega

/-- Witness of C4: the largest admissible dimension, `INT_MAX - 63`. -/
theorem padded_dimension_is_smallest_multiple_witness :
    (0 : Int) ≤ 2147483584 ∧ (2147483584 : Int) + 63 ≤ INT_MAX ∧
    padded_int32 2147483584 = 2147483584 ∧ (64 : Int) ∣ padded_int32 2147483584 :=
  ⟨by decide, by decide, by decide,
    (padded_dimension_is_smallest_multiple 2147483584 (by decide) (by decide)).1⟩

/-- C9: the work decomposition never truncates work.  For all `M`, `N`, with tile
width 64 and vector width 16, `N_padded` is a multiple of 16, each global size
`(M_padded, N_padded / 16)` is a multiple of the local size `(64, 64 / 16)`, and
`M_padded * (N_padded / 16) * 16 = M_padded * N_padded`. -/
theorem work_decomposition_is_exact (M N : Nat) :
    GROUP_WIDTH = 64 ∧ VECTOR_SIZE = 16 ∧ local_work_size = (64, 4) ∧
    VECTOR_SIZE ∣ padded GROUP_WIDTH N ∧
    local_work_size.1 ∣ (global_work_size (padded GROUP_WIDTH M) (padded GROUP_WIDTH N)).1 ∧
    local_work_size.2 ∣ (global_work_size (padded GROUP_WIDTH M) (padded GROUP_WIDTH N)).2 ∧
    (global_work_size (padded GROUP_WIDTH M) (padded GROUP_WIDTH N)).1 *
        (global_work_size (padded GROUP_WIDTH M) (padded GROUP_WIDTH N)).2 * VECTOR_SIZE =
      padded GROUP_WIDTH M * padded GROUP_WIDTH N ∧
    padded GROUP_WIDTH M * (padded GROUP_WIDTH N / 16) * 16 =
      padded GROUP_WIDTH M * padded GROUP_WIDTH N := by
  obtain ⟨p, hp⟩ := dvd_padded GROUP_WIDTH M
  obtain ⟨q, hq⟩ := dvd_padded GROUP_WIDTH N
  have hN16 : padded GROUP_WIDTH N / 16 * 16 = padded GROUP_WIDTH N := by
    rw [hq]
    unfold GROUP_WIDTH
    omega
  have hN4 : padded GROUP_WIDTH N / 16 = 4 * q := by
    rw [hq]
    unfold GROUP_WIDTH
    omega
  refine ⟨rfl, rfl, rfl, ?_, ?_, ?_, ?_, ?_⟩
  · exact ⟨4 * q, by rw [hq]; unfold GROUP_WIDTH VECTOR_SIZE; omega⟩
  · exact ⟨p, hp⟩
  · exact ⟨q, hN4⟩
  · show padded GROUP_WIDTH M * (padded GROUP_WIDTH N / 16) * 16 = _
    rw [Nat.mul_assoc, hN16]
  · rw [Nat.mul_assoc, hN16]

end Matmul
